import Mathlib

/-! Verification of the nem-services transaction builder (`src/transactions.ts`).

Shallow embedding of the `Transactions` service.  Conventions:

* JavaScript numbers that can be fractional are modelled as `ℚ`; values that
  are integral in every reachable state are modelled as `ℤ` (or `ℕ` for the
  version word, which is a bit pattern).
* The external `nem-utils` collaborators (`helpers.createNEMTimeStamp`,
  `helpers.calcMinFee`, `helpers.calcXemEquivalent`, `helpers.mosaicIdToName`,
  `helpers.prepareMessage`, `Address.toAddress`, `KeyPair.create` composed with
  `helpers.fixPrivateKey`) are injected through an `Env` record, mirroring the
  spec's §6 collaborator interfaces.  The ambient network-time source is
  modelled as a stream `timeSource : ℕ → ℤ`; each source-level call of
  `helpers.createNEMTimeStamp()` consumes the next index, which the embedding
  threads explicitly as a `clk : ℕ` argument.
* The double precision `Math.log` used by `calculateMosaicsFee` is modelled by
  the exact real logarithm; `Math.floor`, `Math.ceil` and `Math.round`
  (`Math.round x = ⌊x + 1/2⌋` for finite doubles) by their exact counterparts.
* `JSON`-ish duck-typed records become structures; `Object.assign(data, custom)`
  (with disjoint key sets, as everywhere in this file) becomes a structure
  extension of the common-header structure.
* JavaScript `Array.prototype.sort(cmp)` (stable, and sorted w.r.t. a
  consistent comparator) is modelled by `List.mergeSort` with the boolean
  relation `le a b ↔ cmp a b ≤ 0`.  String comparison (`<`/`>` is UTF-16
  code-unit order; `localeCompare` on the all-ASCII base-32 addresses produced
  by `Address.toAddress`) is modelled by Lean's lexicographic `String` order.
-/

namespace NemServices

/-- nem-utils `Network.data.Mainnet.id` (external constant). -/
def mainnetId : Int := 104

/-- nem-utils `Network.data.Testnet.id` (external constant). -/
def testnetId : Int := -104

namespace TransactionTypes

/-- nem-utils `TransactionTypes` constants (external). -/
def Transfer : Int := 257

def ImportanceTransfer : Int := 2049

def MultisigModification : Int := 4097

def MultisigSignature : Int := 4098

def MultisigTransaction : Int := 4100

def ProvisionNamespace : Int := 8193

def MosaicDefinition : Int := 16385

def MosaicSupply : Int := 16386

end TransactionTypes

/-- A message object `{type, payload}` as produced by `helpers.prepareMessage`. -/
structure Msg where
  type : Int
  payload : String
deriving Repr, DecidableEq

/-- An entry of the `attachedMosaics` array: `{mosaicId, quantity}`.  The
`mosaicId` is kept opaque (a string); `helpers.mosaicIdToName` is injected via
`Env`. -/
structure AttachedMosaic where
  mosaicId : String
  quantity : Int
deriving Repr, DecidableEq

/-- A `{name, value}` entry of `mosaicDefinition.properties`.  The source reads
the numeric value with `~~(value)` (string-to-int32 truncation); the embedding
stores the already-truncated integer. -/
structure MosaicProperty where
  name : String
  value : Int
deriving Repr, DecidableEq

/-- The `mosaicDefinition` part of a registry entry. -/
structure MosaicDefinitionData where
  properties : List MosaicProperty
deriving Repr, DecidableEq

/-- A `mosaicDefinitionMetaDataPair` registry entry: `{mosaicDefinition, supply}`. -/
structure MosaicDefinitionMetaDataPair where
  mosaicDefinition : MosaicDefinitionData
  supply : Int
deriving Repr, DecidableEq

/-- The asset registry (`mosaicsMetaData`): a JS object keyed by the full
mosaic name, modelled as an association list. -/
abbrev MosaicRegistry := List (String × MosaicDefinitionMetaDataPair)

/-- A `{modificationType, cosignatoryAccount}` entry of a multisig
modification list. -/
structure CosignatoryModification where
  modificationType : Int
  cosignatoryAccount : String
deriving Repr, DecidableEq

/-- An entry of `signatoryArray`: `{pubKey, type}`. -/
structure Signatory where
  pubKey : String
  type : Int
deriving Repr, DecidableEq

/-- A `common` password/privateKey object. -/
structure Common where
  password : String
  privateKey : String
deriving Repr, DecidableEq

/-- The `tx` intent consumed by `prepareTransfer`. -/
structure TransferIntent where
  isMultisig : Bool
  /-- Source field `tx.multisigAccount.publicKey`. -/
  multisigAccountPublicKey : String
  recipient : String
  amount : ℚ
  message : String
  isEncrypted : Bool
  mosaics : Option (List AttachedMosaic)
deriving Repr, DecidableEq

/-- The external collaborators of `Transactions` (spec §6), plus the wallet
context (`this.wallet.network`). -/
structure Env where
  /-- Source value `this.wallet.network`. -/
  network : Int
  /-- Successive results of `helpers.createNEMTimeStamp()`. -/
  timeSource : Nat → Int
  /-- Collaborator `helpers.mosaicIdToName`. -/
  mosaicIdToName : String → String
  /-- Collaborator `helpers.calcMinFee`. -/
  calcMinFee : ℚ → Int
  /-- Collaborator `helpers.calcXemEquivalent multiplier quantity supply divisibility`. -/
  calcXemEquivalent : ℚ → Int → Int → Int → ℚ
  /-- Collaborator `Address.toAddress publicKey network`. -/
  toAddress : String → Int → String
  /-- Collaborator composition `KeyPair.create(helpers.fixPrivateKey privateKey).publicKey.toString()`. -/
  publicKeyOf : String → String
  /-- Collaborator `helpers.prepareMessage common tx`. -/
  prepareMessage : Common → TransferIntent → Msg

/-- Embedding of `CURRENT_NETWORK_VERSION` (transactions.ts lines 29–36). -/
def CURRENT_NETWORK_VERSION (env : Env) (val : Nat) : Nat :=
  if env.network = mainnetId then 0x68000000 ||| val
  else if env.network = testnetId then 0x98000000 ||| val
  else 0x60000000 ||| val

/-- The common part of a transaction, the result of `CREATE_DATA`. -/
structure CommonData where
  type : Int
  version : Nat
  signer : String
  timeStamp : Int
  deadline : Int
deriving Repr, DecidableEq

/-- Embedding of `CREATE_DATA` (transactions.ts lines 49–57).  The `version ||` fallback
fires exactly on the falsy bit pattern `0`. -/
def CREATE_DATA (env : Env) (txtype : Int) (senderPublicKey : String)
    (timeStamp : Int) (due : Int) (version : Nat) : CommonData :=
  { type := txtype
    version := if version = 0 then CURRENT_NETWORK_VERSION env 1 else version
    signer := senderPublicKey
    timeStamp := timeStamp
    deadline := timeStamp + due * 60 }

/-- Embedding of `Math.floor(0.8 * Math.log(maxMosaicQuantity / totalMosaicQuantity))` with
`totalMosaicQuantity = supply * Math.pow(10, divisibility)` (transactions.ts
lines 89–91), over exact reals. -/
noncomputable def supplyRelatedAdjustment (supply divisibility : Int) : Int :=
  ⌊(0.8 : ℝ) * Real.log ((9000000000000000 : ℝ) / ((supply : ℝ) * (10 : ℝ) ^ divisibility))⌋

/-- The divisibility read out of a registry entry (transactions.ts lines
79–81): the value of the unique `"divisibility"` property, `0` otherwise. -/
def divisibilityOf (pair : MosaicDefinitionMetaDataPair) : Int :=
  match pair.mosaicDefinition.properties.filter (fun w => w.name == "divisibility") with
  | [p] => p.value
  | _ => 0

/-- One iteration of the loop body of `calculateMosaicsFee` after a successful
registry lookup (transactions.ts lines 78–97): given the carried
`supplyRelatedAdjustment` state `adjIn`, returns the term added to `totalFee`
and the updated adjustment state (the source declares `supplyRelatedAdjustment`
outside the loop, so the small-business branch reuses the previous value). -/
noncomputable def mosaicFeeContribution (env : Env) (multiplier : ℚ)
    (pair : MosaicDefinitionMetaDataPair) (m : AttachedMosaic) (adjIn : Int) :
    Int × Int :=
  let divisibility := divisibilityOf pair
  let supply := pair.supply
  if supply ≤ 10000 ∧ divisibility = 0 then
    (max 1 (1 - adjIn), adjIn)
  else
    let adj := supplyRelatedAdjustment supply divisibility
    let numNem := env.calcXemEquivalent multiplier m.quantity supply divisibility
    let fee := env.calcMinFee (⌈numNem⌉ : ℚ)
    (max 1 (fee - adj), adj)

/-- The loop of `calculateMosaicsFee` (transactions.ts lines 72–98), threading
`totalFee` and the carried `supplyRelatedAdjustment`; `none` models the early
`return -1` on a registry miss. -/
noncomputable def mosaicsFeeLoop (env : Env) (multiplier : ℚ)
    (mosaics : MosaicRegistry) :
    List AttachedMosaic → Int → Int → Option Int
  | [], totalFee, _ => some totalFee
  | m :: rest, totalFee, adj =>
    match mosaics.lookup (env.mosaicIdToName m.mosaicId) with
    | none => none
    | some pair =>
      let c := mosaicFeeContribution env multiplier pair m adj
      mosaicsFeeLoop env multiplier mosaics rest (totalFee + c.1) c.2

/-- Embedding of `calculateMosaicsFee` (transactions.ts lines 68–100).  A lookup miss yields
the sentinel `-1`; otherwise the result is `max 1 totalFee`. -/
noncomputable def calculateMosaicsFee (env : Env) (multiplier : ℚ)
    (mosaics : MosaicRegistry) (attachedMosaics : List AttachedMosaic) : Int :=
  match mosaicsFeeLoop env multiplier mosaics attachedMosaics 0 0 with
  | none => -1
  | some totalFee => max 1 totalFee

/-- A multisig wrapper entity (`MultisigTransaction`), generic over the inner
entity carried in `otherTrans`. -/
structure MultisigTx (α : Type) extends CommonData where
  fee : Int
  otherTrans : α
deriving Repr, DecidableEq

/-- Embedding of `_multisigWrapper` (transactions.ts lines 111–123). -/
def multisigWrapper (env : Env) (clk : Nat) (senderPublicKey : String) {α : Type}
    (innerEntity : α) (due : Int) : MultisigTx α :=
  let timeStamp := env.timeSource clk
  let version := CURRENT_NETWORK_VERSION env 1
  let data := CREATE_DATA env TransactionTypes.MultisigTransaction senderPublicKey
    timeStamp due version
  { toCommonData := data
    fee := 6000000
    otherTrans := innerEntity }

/-- Result of a `prepare*` method: the bare entity, or the entity wrapped by
`_multisigWrapper` when the intent is on behalf of a multisig account. -/
inductive Built (α : Type) where
  | plain (entity : α)
  | wrapped (entity : MultisigTx α)
deriving Repr, DecidableEq

/-- The common headers of a built result, outermost first. -/
def Built.headers {α : Type} (toC : α → CommonData) : Built α → List CommonData
  | .plain e => [toC e]
  | .wrapped w => [w.toCommonData, toC w.otherTrans]

/-- The fee fields of a built result, outermost first. -/
def Built.fees {α : Type} (feeOf : α → Int) : Built α → List Int
  | .plain e => [feeOf e]
  | .wrapped w => [w.fee, feeOf w.otherTrans]

/-- Embedding of `recipientCompressedKey.toUpperCase().replace(dashRegexGlobal, "")`:
upper-case, then drop every dash character. -/
def normalizeAddress (s : String) : String :=
  String.mk (s.toUpper.toList.filter (fun c => c ≠ '-'))

/-- Embedding of `rentalFeeSink.replace(dashRegexGlobal, "")` (drop every dash character,
with no upper-casing, transactions.ts
line 412). -/
def stripDashes (s : String) : String :=
  String.mk (s.toList.filter (fun c => c ≠ '-'))

/-- The message-fee expression of `_constructTransfer` (transactions.ts line
177): `message.payload.length ? Math.max(1, Math.floor((len / 2) / 32) + 1) : 0`.
For a natural `len`, `Math.floor((len / 2) / 32)` over doubles equals the
nested natural division `len / 2 / 32`. -/
def messageFee (payload : String) : Int :=
  if payload.length ≠ 0 then max 1 ((payload.length / 2 / 32 + 1 : Nat) : Int) else 0

/-- A `TransferTransaction` entity. -/
structure TransferEntity extends CommonData where
  recipient : String
  amount : ℚ
  fee : Int
  message : Msg
  mosaics : Option (List AttachedMosaic)
deriving Repr, DecidableEq

/-- Embedding of `_constructTransfer` (transactions.ts lines 170–189).  `mosaicsFee` is
`number | null`; in the JS arithmetic `(msgFee + fee) * 1000000` a `null`
coerces to `0`, hence the `getD 0`. -/
noncomputable def constructTransfer (env : Env) (clk : Nat)
    (senderPublicKey recipientCompressedKey : String) (amount : ℚ) (message : Msg)
    (due : Int) (mosaics : Option (List AttachedMosaic)) (mosaicsFee : Option Int) :
    TransferEntity :=
  let timeStamp := env.timeSource clk
  let version := if mosaics.isSome then CURRENT_NETWORK_VERSION env 2
    else CURRENT_NETWORK_VERSION env 1
  let data := CREATE_DATA env TransactionTypes.Transfer senderPublicKey timeStamp due version
  let msgFee := messageFee message.payload
  let fee := if mosaics.isSome then mosaicsFee.getD 0 else env.calcMinFee (amount / 1000000)
  let totalFee := (msgFee + fee) * 1000000
  { toCommonData := data
    recipient := normalizeAddress recipientCompressedKey
    amount := amount
    fee := totalFee
    message := message
    mosaics := mosaics }

/-- Embedding of `prepareTransfer` (transactions.ts lines 135–155). -/
noncomputable def prepareTransfer (env : Env) (clk : Nat) (common : Common)
    (tx : TransferIntent) (mosaicsMetaData : MosaicRegistry) : Built TransferEntity :=
  let kpPublicKey := env.publicKeyOf common.privateKey
  let actualSender := if tx.isMultisig then tx.multisigAccountPublicKey else kpPublicKey
  let recipientCompressedKey := tx.recipient
  let amount : ℚ := ((⌊tx.amount * 1000000 + 1/2⌋ : Int) : ℚ)
  let message := env.prepareMessage common tx
  let due : Int := if env.network = testnetId then 60 else 24 * 60
  let mosaics := tx.mosaics
  let mosaicsFee : Option Int :=
    match tx.mosaics with
    | none => none
    | some ms => some (calculateMosaicsFee env amount mosaicsMetaData ms)
  let entity := constructTransfer env clk actualSender recipientCompressedKey amount
    message due mosaics mosaicsFee
  if tx.isMultisig then .wrapped (multisigWrapper env (clk + 1) kpPublicKey entity due)
  else .plain entity

/-- The `tx` intent consumed by `prepareNamespace`; `namespaceParent` carries
`tx.namespaceParent.fqn` when a parent is given. -/
structure NamespaceIntent where
  isMultisig : Bool
  multisigAccountPublicKey : String
  rentalFeeSink : String
  namespaceParent : Option String
  namespaceName : String
deriving Repr, DecidableEq

/-- A `ProvisionNamespaceTransaction` entity. -/
structure NamespaceEntity extends CommonData where
  rentalFeeSink : String
  rentalFee : Int
  parent : Option String
  newPart : String
  fee : Int
deriving Repr, DecidableEq

/-- Embedding of `_constructNamespace` (transactions.ts lines 334–352). -/
def constructNamespace (env : Env) (clk : Nat) (senderPublicKey rentalFeeSink : String)
    (rentalFee : Int) (namespaceParent : Option String) (namespaceName : String)
    (due : Int) : NamespaceEntity :=
  let timeStamp := env.timeSource clk
  let version := CURRENT_NETWORK_VERSION env 1
  let data := CREATE_DATA env TransactionTypes.ProvisionNamespace senderPublicKey
    timeStamp due version
  let fee : Int := 20 * 1000000
  { toCommonData := data
    rentalFeeSink := normalizeAddress rentalFeeSink
    rentalFee := rentalFee
    parent := namespaceParent
    newPart := namespaceName
    fee := fee }

/-- Embedding of `prepareNamespace` (transactions.ts lines 301–320). -/
def prepareNamespace (env : Env) (clk : Nat) (common : Common)
    (tx : NamespaceIntent) : Built NamespaceEntity :=
  let kpPublicKey := env.publicKeyOf common.privateKey
  let actualSender := if tx.isMultisig then tx.multisigAccountPublicKey else kpPublicKey
  let rentalFeeSink := tx.rentalFeeSink
  let rentalFee : Int := if tx.namespaceParent.isSome then 200 * 1000000 else 5000 * 1000000
  let namespaceParent := tx.namespaceParent
  let namespaceName := tx.namespaceName
  let due : Int := if env.network = testnetId then 60 else 24 * 60
  let entity := constructNamespace env clk actualSender rentalFeeSink rentalFee
    namespaceParent namespaceName due
  if tx.isMultisig then .wrapped (multisigWrapper env (clk + 1) kpPublicKey entity due)
  else .plain entity

/-- A levy object carried by a mosaic-definition intent; `mosaic` is the levy
mosaic id (opaque), absent when no levy mosaic is set (the source tests
`tx.levy.mosaic` for truthiness). -/
structure Levy where
  feeType : Int
  address : String
  mosaic : Option String
  fee : Int
deriving Repr, DecidableEq

/-- The levy substructure of a built mosaic definition. -/
structure LevyData where
  type : Int
  recipient : String
  mosaicId : Option String
  fee : Int
deriving Repr, DecidableEq

/-- A stringified `{name, value}` property of a built mosaic definition. -/
structure NamedValue where
  name : String
  value : String
deriving Repr, DecidableEq

/-- The `mosaicDefinition` substructure of a built mosaic definition. -/
structure NewMosaicDefinition where
  creator : String
  namespaceId : String
  name : String
  description : String
  properties : List NamedValue
  levy : Option LevyData
deriving Repr, DecidableEq

/-- A `MosaicDefinitionCreationTransaction` entity. -/
structure MosaicDefinitionEntity extends CommonData where
  creationFeeSink : String
  creationFee : Int
  mosaicDefinition : NewMosaicDefinition
  fee : Int
deriving Repr, DecidableEq

/-- The `tx` intent consumed by `prepareMosaicDefinition`;
`namespaceParentFqn` carries `tx.namespaceParent.fqn`, and `properties` the
ordered key/value pairs of `tx.properties` (values already stringified). -/
structure MosaicDefinitionIntent where
  isMultisig : Bool
  multisigAccountPublicKey : String
  mosaicFeeSink : String
  namespaceParentFqn : String
  mosaicName : String
  mosaicDescription : String
  properties : List (String × String)
  levy : Levy
deriving Repr, DecidableEq

/-- Embedding of `_constructMosaicDefinition` (transactions.ts lines 395–434). -/
def constructMosaicDefinition (env : Env) (clk : Nat)
    (senderPublicKey rentalFeeSink : String) (rentalFee : Int)
    (namespaceParent mosaicName mosaicDescription : String)
    (mosaicProperties : List (String × String)) (levy : Option Levy) (due : Int) :
    MosaicDefinitionEntity :=
  let timeStamp := env.timeSource clk
  let version := CURRENT_NETWORK_VERSION env 1
  let data := CREATE_DATA env TransactionTypes.MosaicDefinition senderPublicKey
    timeStamp due version
  let fee : Int := 20 * 1000000
  let levyData : Option LevyData := levy.map (fun l =>
    { type := l.feeType
      recipient := normalizeAddress l.address
      mosaicId := l.mosaic
      fee := l.fee })
  { toCommonData := data
    creationFeeSink := stripDashes rentalFeeSink
    creationFee := rentalFee
    mosaicDefinition :=
      { creator := senderPublicKey
        namespaceId := namespaceParent
        name := mosaicName
        description := mosaicDescription
        properties := mosaicProperties.map (fun kv => { name := kv.1, value := kv.2 })
        levy := levyData }
    fee := fee }

/-- Embedding of `prepareMosaicDefinition` (transactions.ts lines 362–378). -/
def prepareMosaicDefinition (env : Env) (clk : Nat) (common : Common)
    (tx : MosaicDefinitionIntent) : Built MosaicDefinitionEntity :=
  let kpPublicKey := env.publicKeyOf common.privateKey
  let actualSender := if tx.isMultisig then tx.multisigAccountPublicKey else kpPublicKey
  let rentalFeeSink := tx.mosaicFeeSink
  let rentalFee : Int := 500 * 1000000
  let namespaceParent := tx.namespaceParentFqn
  let mosaicName := tx.mosaicName
  let mosaicDescription := tx.mosaicDescription
  let mosaicProperties := tx.properties
  let levy : Option Levy := if tx.levy.mosaic.isSome then some tx.levy else none
  let due : Int := if env.network = testnetId then 60 else 24 * 60
  let entity := constructMosaicDefinition env clk actualSender rentalFeeSink rentalFee
    namespaceParent mosaicName mosaicDescription mosaicProperties levy due
  if tx.isMultisig then .wrapped (multisigWrapper env (clk + 1) kpPublicKey entity due)
  else .plain entity

/-- The `tx` intent consumed by `prepareMosaicSupply`; the mosaic id is opaque. -/
structure MosaicSupplyIntent where
  isMultisig : Bool
  multisigAccountPublicKey : String
  mosaic : String
  supplyType : Int
  delta : Int
deriving Repr, DecidableEq

/-- A `MosaicSupplyChangeTransaction` entity. -/
structure MosaicSupplyEntity extends CommonData where
  mosaicId : String
  supplyType : Int
  delta : Int
  fee : Int
deriving Repr, DecidableEq

/-- Embedding of `_constructMosaicSupply` (transactions.ts lines 466–483). -/
def constructMosaicSupply (env : Env) (clk : Nat) (senderPublicKey : String)
    (mosaicId : String) (supplyType delta : Int) (due : Int) : MosaicSupplyEntity :=
  let timeStamp := env.timeSource clk
  let version := CURRENT_NETWORK_VERSION env 1
  let data := CREATE_DATA env TransactionTypes.MosaicSupply senderPublicKey
    timeStamp due version
  let fee : Int := 20 * 1000000
  { toCommonData := data
    mosaicId := mosaicId
    supplyType := supplyType
    delta := delta
    fee := fee }

/-- Embedding of `prepareMosaicSupply` (transactions.ts lines 444–453). -/
def prepareMosaicSupply (env : Env) (clk : Nat) (common : Common)
    (tx : MosaicSupplyIntent) : Built MosaicSupplyEntity :=
  let kpPublicKey := env.publicKeyOf common.privateKey
  let actualSender := if tx.isMultisig then tx.multisigAccountPublicKey else kpPublicKey
  let due : Int := if env.network = testnetId then 60 else 24 * 60
  let entity := constructMosaicSupply env clk actualSender tx.mosaic tx.supplyType tx.delta due
  if tx.isMultisig then .wrapped (multisigWrapper env (clk + 1) kpPublicKey entity due)
  else .plain entity

/-- The `tx` intent consumed by `prepareImportanceTransfer`. -/
structure ImportanceIntent where
  isMultisig : Bool
  multisigAccountPublicKey : String
  remoteAccount : String
  mode : Int
deriving Repr, DecidableEq

/-- An `ImportanceTransferTransaction` entity. -/
structure ImportanceEntity extends CommonData where
  remoteAccount : String
  mode : Int
  fee : Int
deriving Repr, DecidableEq

/-- Embedding of `_constructImportanceTransfer` (transactions.ts lines 514–527). -/
def constructImportanceTransfer (env : Env) (clk : Nat)
    (senderPublicKey recipientKey : String) (mode : Int) (due : Int) : ImportanceEntity :=
  let timeStamp := env.timeSource clk
  let version := CURRENT_NETWORK_VERSION env 1
  let data := CREATE_DATA env TransactionTypes.ImportanceTransfer senderPublicKey
    timeStamp due version
  { toCommonData := data
    remoteAccount := recipientKey
    mode := mode
    fee := 6000000 }

/-- Embedding of `prepareImportanceTransfer` (transactions.ts lines 493–502). -/
def prepareImportanceTransfer (env : Env) (clk : Nat) (common : Common)
    (tx : ImportanceIntent) : Built ImportanceEntity :=
  let kpPublicKey := env.publicKeyOf common.privateKey
  let actualSender := if tx.isMultisig then tx.multisigAccountPublicKey else kpPublicKey
  let due : Int := if env.network = testnetId then 60 else 24 * 60
  let entity := constructImportanceTransfer env clk actualSender tx.remoteAccount tx.mode due
  if tx.isMultisig then .wrapped (multisigWrapper env (clk + 1) kpPublicKey entity due)
  else .plain entity

/-- The `tx` intent consumed by `prepareApostilleTransfer`; `message` is the
apostille file hash. -/
structure ApostilleIntent where
  isMultisig : Bool
  multisigAccountPublicKey : String
  recipient : String
  amount : ℚ
  message : String
deriving Repr, DecidableEq

/-- Embedding of `prepareApostilleTransfer` (transactions.ts lines 537–557).  Unlike
`prepareTransfer` the amount is not rounded, and the message is the literal
hex hash with type 1. -/
noncomputable def prepareApostilleTransfer (env : Env) (clk : Nat) (common : Common)
    (tx : ApostilleIntent) : Built TransferEntity :=
  let kpPublicKey := env.publicKeyOf common.privateKey
  let actualSender := if tx.isMultisig then tx.multisigAccountPublicKey else kpPublicKey
  let recipientCompressedKey := tx.recipient
  let amount : ℚ := tx.amount * 1000000
  let message : Msg := { type := 1, payload := tx.message }
  let due : Int := if env.network = testnetId then 60 else 24 * 60
  let mosaics : Option (List AttachedMosaic) := none
  let mosaicsFee : Option Int := none
  let entity := constructTransfer env clk actualSender recipientCompressedKey amount
    message due mosaics mosaicsFee
  if tx.isMultisig then .wrapped (multisigWrapper env (clk + 1) kpPublicKey entity due)
  else .plain entity

/-- The `minCosignatories` substructure; `relativeChange` carries
`tx.minCosigs`, which may be `null`. -/
structure MinCosignatories where
  relativeChange : Option Int
deriving Repr, DecidableEq

/-- A `MultisigAggregateModificationTransaction` entity. -/
structure AggregateEntity extends CommonData where
  fee : Int
  modifications : List CosignatoryModification
  minCosignatories : Option MinCosignatories
deriving Repr, DecidableEq

/-- The `tx` intent consumed by the aggregate-modification builders. -/
structure AggregateIntent where
  multisigPubKey : String
  minCosigs : Option Int
deriving Repr, DecidableEq

/-- Lexicographic code-point comparison of char lists (the order underlying
JavaScript string comparison for the all-ASCII addresses produced by
`Address.toAddress`). -/
def charListLe : List Char → List Char → Bool
  | [], _ => true
  | _ :: _, [] => false
  | a :: as, b :: bs => if a < b then true else if b < a then false else charListLe as bs

/-- JavaScript string comparison `a <= b` (and the `localeCompare(...) <= 0`
relation on base-32 addresses): lexicographic on the code points. -/
def strLe (a b : String) : Bool := charListLe a.data b.data

/-- The sort key of both modification sorts: `Address.toAddress(
m.cosignatoryAccount, this.wallet.network)`. -/
def addrOf (env : Env) (m : CosignatoryModification) : String :=
  env.toAddress m.cosignatoryAccount env.network

/-- The comparator of `_constructAggregate`'s sort (transactions.ts lines
223–227), as the relation `cmp a b ≤ 0`: address-only comparison. -/
def aggregateLe (env : Env) (a b : CosignatoryModification) : Bool :=
  strLe (addrOf env a) (addrOf env b)

/-- The comparator of `_constructAggregateModifications`'s sort
(transactions.ts lines 283–285), as the relation `cmp a b ≤ 0`:
`a.modificationType - b.modificationType || localeCompare(addresses)`. -/
def aggregateModLe (env : Env) (a b : CosignatoryModification) : Bool :=
  decide (a.modificationType < b.modificationType) ||
    (decide (a.modificationType = b.modificationType) &&
      strLe (addrOf env a) (addrOf env b))

/-- Embedding of `_constructAggregate` (transactions.ts lines 199–233): every modification
is pushed with `modificationType: 1`, and the list is sorted by address when
it has more than one element. -/
def constructAggregate (env : Env) (clk : Nat) (tx : AggregateIntent)
    (signatoryArray : List Signatory) : AggregateEntity :=
  let timeStamp := env.timeSource clk
  let version := CURRENT_NETWORK_VERSION env 2
  let due : Int := if env.network = testnetId then 60 else 24 * 60
  let data := CREATE_DATA env TransactionTypes.MultisigModification tx.multisigPubKey
    timeStamp due version
  let totalFee : Int := (10 + 6 * (signatoryArray.length : Int) + 6) * 1000000
  let mods := signatoryArray.map (fun s =>
    { modificationType := 1, cosignatoryAccount := s.pubKey : CosignatoryModification })
  let mods := if 1 < mods.length then mods.mergeSort (aggregateLe env) else mods
  { toCommonData := data
    fee := totalFee
    modifications := mods
    minCosignatories := some { relativeChange := tx.minCosigs } }

/-- Embedding of `_constructAggregateModifications` (transactions.ts lines 244–291): each
modification copies the signatory's `type`; the list is sorted by
(type, address) when it has more than one element; the entity is always
wrapped by `_multisigWrapper`. -/
def constructAggregateModifications (env : Env) (clk : Nat) (senderPublicKey : String)
    (tx : AggregateIntent) (signatoryArray : List Signatory) :
    MultisigTx AggregateEntity :=
  let timeStamp := env.timeSource clk
  let due : Int := if env.network = testnetId then 60 else 24 * 60
  let noMin := tx.minCosigs = none ∨ tx.minCosigs = some 0
  let version := if noMin then CURRENT_NETWORK_VERSION env 1 else CURRENT_NETWORK_VERSION env 2
  let data := CREATE_DATA env TransactionTypes.MultisigModification tx.multisigPubKey
    timeStamp due version
  let totalFee : Int :=
    if noMin then (10 + 6 * (signatoryArray.length : Int)) * 1000000
    else (10 + 6 * (signatoryArray.length : Int) + 6) * 1000000
  let minCosignatories : Option MinCosignatories :=
    if noMin then none else some { relativeChange := tx.minCosigs }
  let mods := signatoryArray.map (fun s =>
    { modificationType := s.type, cosignatoryAccount := s.pubKey : CosignatoryModification })
  let mods := if 1 < mods.length then mods.mergeSort (aggregateModLe env) else mods
  let entity : AggregateEntity :=
    { toCommonData := data
      fee := totalFee
      modifications := mods
      minCosignatories := minCosignatories }
  multisigWrapper env (clk + 1) senderPublicKey entity due

/-- The `tx` intent consumed by `prepareSignature`. -/
structure SignatureIntent where
  multisigAccountAddress : String
  hash : String
deriving Repr, DecidableEq

/-- The `otherHash` substructure of a signature entity. -/
structure OtherHash where
  data : String
deriving Repr, DecidableEq

/-- A `MultisigSignatureTransaction` entity. -/
structure SignatureEntity extends CommonData where
  otherHash : OtherHash
  otherAccount : String
  fee : Int
deriving Repr, DecidableEq

/-- Embedding of `_constructSignature` (transactions.ts lines 593–611). -/
def constructSignature (env : Env) (clk : Nat)
    (senderPublicKey otherAccount otherHash : String) (due : Int) : SignatureEntity :=
  let timeStamp := env.timeSource clk
  let version := CURRENT_NETWORK_VERSION env 1
  let data := CREATE_DATA env TransactionTypes.MultisigSignature senderPublicKey
    timeStamp due version
  let totalFee : Int := (2 * 3) * 1000000
  { toCommonData := data
    otherHash := { data := otherHash }
    otherAccount := otherAccount
    fee := totalFee }

/-- The entity built inside `prepareSignature` (transactions.ts lines
567–581) before the serialization/sign/announce tail, which is external
network I/O and outside this model. -/
def prepareSignatureEntity (env : Env) (clk : Nat) (common : Common)
    (tx : SignatureIntent) : SignatureEntity :=
  let actualSender := env.publicKeyOf common.privateKey
  let otherAccount := tx.multisigAccountAddress
  let otherHash := tx.hash
  let due : Int := if env.network = testnetId then 60 else 24 * 60
  constructSignature env clk actualSender otherAccount otherHash due


/-! Concrete instances used by witnesses and counterexamples. -/

/-- A concrete collaborator environment on the test network: the time source
ticks `0, 1, 2, …`, the minimum-fee helper returns the constant `1`,
`mosaicIdToName` and `toAddress` are identities, and `prepareMessage` yields
an empty payload. -/
def envW : Env :=
  { network := testnetId
    timeSource := fun n => (n : Int)
    mosaicIdToName := fun s => s
    calcMinFee := fun _ => 1
    calcXemEquivalent := fun _ _ _ _ => 0
    toAddress := fun s _ => s
    publicKeyOf := fun _ => "SENDERPUB"
    prepareMessage := fun _ _ => { type := 1, payload := "" } }

/-- A concrete credentials object. -/
def commonW : Common := { password := "", privateKey := "priv" }

/-- A concrete non-multisig transfer intent with no attachments. -/
def txPlainW : TransferIntent :=
  { isMultisig := false
    multisigAccountPublicKey := "MULTIPUB"
    recipient := "tb-cd"
    amount := 0
    message := ""
    isEncrypted := false
    mosaics := none }

/-- The canonical modification order of spec §3: non-decreasing by operation
code, then by the canonical address derived from the cosignatory key under
the active network. -/
def ModListSorted (env : Env) (l : List CosignatoryModification) : Prop :=
  l.Pairwise (fun a b => a.modificationType < b.modificationType ∨
    (a.modificationType = b.modificationType ∧ strLe (addrOf env a) (addrOf env b) = true))

/-- A concrete aggregate intent with a minimum-cosignatories change. -/
def aggTxW : AggregateIntent := { multisigPubKey := "MPUB", minCosigs := some 1 }

/-- A concrete multisig-flagged transfer intent. -/
def txMultiW : TransferIntent := { txPlainW with isMultisig := true }

/-- A concrete transfer intent whose single attachment names an asset absent
from the (empty) registry used alongside it. -/
def txUnknownW : TransferIntent :=
  { txPlainW with mosaics := some [{ mosaicId := "missing", quantity := 1 }] }

/-- A registry entry for a divisibility-0 asset whose supply `10^16` exceeds
the maximal mosaic quantity. -/
def bigPairW : MosaicDefinitionMetaDataPair :=
  { mosaicDefinition := { properties := [{ name := "divisibility", value := 0 }] }
    supply := 10000000000000000 }

/-- A registry entry for a small-business asset: supply 5000, divisibility 0. -/
def smallPairW : MosaicDefinitionMetaDataPair :=
  { mosaicDefinition := { properties := [{ name := "divisibility", value := 0 }] }
    supply := 5000 }

/-- A registry holding the oversupplied asset and the small-business asset. -/
def registryW : MosaicRegistry := [("big:asset", bigPairW), ("small:asset", smallPairW)]

/-! Theorems. -/

/-- C9: for every message payload, the message fee is `0` when the payload is
empty and otherwise `max 1 (⌊payloadLength / 2 / 32⌋ + 1)`, the length counted
in hex characters. -/
theorem messageFee_formula (payload : String) :
    messageFee payload =
      if payload.length = 0 then 0
      else max 1 (⌊(payload.length : ℚ) / 2 / 32⌋ + 1) := by
  unfold messageFee
  rcases Nat.eq_zero_or_pos payload.length with h | h
  · simp [h]
  · have hne : payload.length ≠ 0 := by omega
    simp only [hne, if_true, if_neg hne, ne_eq, not_false_eq_true, if_pos]
    have : (⌊(payload.length : ℚ) / 2 / 32⌋ : Int) = ((payload.length / 2 / 32 : Nat) : Int) := by
      rw [div_div]
      norm_num
      rw [show ((64:ℚ)) = ((64:ℕ):ℚ) by norm_num, Rat.floor_natCast_div_natCast]
      omega
    rw [this]
    push_cast
    rfl


/-- The version words actually used (schema 1 or 2) are nonzero, so
`CREATE_DATA`'s falsy-fallback `version ||` never fires on them. -/
theorem CURRENT_NETWORK_VERSION_ne_zero (env : Env) (val : Nat)
    (h : val = 1 ∨ val = 2) : CURRENT_NETWORK_VERSION env val ≠ 0 := by
  unfold CURRENT_NETWORK_VERSION
  rcases h with rfl | rfl <;> split <;> first | decide | (split <;> decide)

/-- C8: the version word is the network prefix (`0x68000000` main,
`0x98000000` test, `0x60000000` otherwise) OR-ed with the schema version; its
high byte is accordingly `0x68`/`0x98`/`0x60`; and a transfer's schema
version is 2 exactly when the mosaics field is present, 1 otherwise. -/
theorem version_word_formula (env : Env) :
    (∀ val : Nat, CURRENT_NETWORK_VERSION env val =
        (if env.network = mainnetId then 0x68000000
         else if env.network = testnetId then 0x98000000
         else 0x60000000) ||| val)
    ∧ (∀ val : Nat, val = 1 ∨ val = 2 →
        CURRENT_NETWORK_VERSION env val / 0x1000000 =
          (if env.network = mainnetId then 0x68
           else if env.network = testnetId then 0x98
           else 0x60))
    ∧ (∀ (clk : Nat) (sender recipient : String) (amount : ℚ) (message : Msg)
        (due : Int) (mosaics : Option (List AttachedMosaic)) (mosaicsFee : Option Int),
        (constructTransfer env clk sender recipient amount message due mosaics
            mosaicsFee).version =
          CURRENT_NETWORK_VERSION env (if mosaics.isSome then 2 else 1)) := by
  refine ⟨?_, ?_, ?_⟩
  · intro val
    unfold CURRENT_NETWORK_VERSION
    split
    · rfl
    · split <;> rfl
  · intro val hval
    unfold CURRENT_NETWORK_VERSION
    rcases hval with rfl | rfl <;> split <;> first | decide | (split <;> decide)
  · intro clk sender recipient amount message due mosaics mosaicsFee
    have h1 := CURRENT_NETWORK_VERSION_ne_zero env 1 (Or.inl rfl)
    have h2 := CURRENT_NETWORK_VERSION_ne_zero env 2 (Or.inr rfl)
    rcases mosaics with _ | ms <;>
      simp [constructTransfer, CREATE_DATA, h1, h2]


/-- C7: every header (outer wrapper and inner entity alike) of every built
transaction satisfies `deadline = timeStamp + dueMinutes * 60` with
`dueMinutes = 60` on the test network and `1440` otherwise. -/
theorem deadline_policy (env : Env) :
    (∀ (clk : Nat) (common : Common) (tx : TransferIntent) (meta : MosaicRegistry)
        (c : CommonData),
        c ∈ (prepareTransfer env clk common tx meta).headers (fun e => e.toCommonData) →
        c.deadline = c.timeStamp + (if env.network = testnetId then 60 else 1440) * 60)
    ∧ (∀ (clk : Nat) (common : Common) (tx : NamespaceIntent) (c : CommonData),
        c ∈ (prepareNamespace env clk common tx).headers (fun e => e.toCommonData) →
        c.deadline = c.timeStamp + (if env.network = testnetId then 60 else 1440) * 60)
    ∧ (∀ (clk : Nat) (common : Common) (tx : MosaicDefinitionIntent) (c : CommonData),
        c ∈ (prepareMosaicDefinition env clk common tx).headers (fun e => e.toCommonData) →
        c.deadline = c.timeStamp + (if env.network = testnetId then 60 else 1440) * 60)
    ∧ (∀ (clk : Nat) (common : Common) (tx : MosaicSupplyIntent) (c : CommonData),
        c ∈ (prepareMosaicSupply env clk common tx).headers (fun e => e.toCommonData) →
        c.deadline = c.timeStamp + (if env.network = testnetId then 60 else 1440) * 60)
    ∧ (∀ (clk : Nat) (common : Common) (tx : ImportanceIntent) (c : CommonData),
        c ∈ (prepareImportanceTransfer env clk common tx).headers (fun e => e.toCommonData) →
        c.deadline = c.timeStamp + (if env.network = testnetId then 60 else 1440) * 60)
    ∧ (∀ (clk : Nat) (common : Common) (tx : ApostilleIntent) (c : CommonData),
        c ∈ (prepareApostilleTransfer env clk common tx).headers (fun e => e.toCommonData) →
        c.deadline = c.timeStamp + (if env.network = testnetId then 60 else 1440) * 60)
    ∧ (∀ (clk : Nat) (tx : AggregateIntent) (arr : List Signatory),
        (constructAggregate env clk tx arr).deadline =
          (constructAggregate env clk tx arr).timeStamp +
            (if env.network = testnetId then 60 else 1440) * 60)
    ∧ (∀ (clk : Nat) (sender : String) (tx : AggregateIntent) (arr : List Signatory)
        (c : CommonData),
        (c = (constructAggregateModifications env clk sender tx arr).toCommonData ∨
         c = (constructAggregateModifications env clk sender tx arr).otherTrans.toCommonData) →
        c.deadline = c.timeStamp + (if env.network = testnetId then 60 else 1440) * 60)
    ∧ (∀ (clk : Nat) (common : Common) (tx : SignatureIntent),
        (prepareSignatureEntity env clk common tx).deadline =
          (prepareSignatureEntity env clk common tx).timeStamp +
            (if env.network = testnetId then 60 else 1440) * 60) := by
  refine ⟨?_, ?_, ?_, ?_, ?_, ?_, ?_, ?_, ?_⟩
  · intro clk common tx meta c hc
    cases htx : tx.isMultisig
    · simp [prepareTransfer, constructTransfer, multisigWrapper, CREATE_DATA,
        Built.headers, htx] at hc
      subst hc
      rcases eq_or_ne env.network testnetId with h | h <;> simp [h]
    · simp [prepareTransfer, constructTransfer, multisigWrapper, CREATE_DATA,
        Built.headers, htx] at hc
      rcases hc with rfl | rfl <;>
        (rcases eq_or_ne env.network testnetId with h | h <;> simp [h])
  · intro clk common tx c hc
    cases htx : tx.isMultisig
    · simp [prepareNamespace, constructNamespace, multisigWrapper, CREATE_DATA,
        Built.headers, htx] at hc
      subst hc
      rcases eq_or_ne env.network testnetId with h | h <;> simp [h]
    · simp [prepareNamespace, constructNamespace, multisigWrapper, CREATE_DATA,
        Built.headers, htx] at hc
      rcases hc with rfl | rfl <;>
        (rcases eq_or_ne env.network testnetId with h | h <;> simp [h])
  · intro clk common tx c hc
    cases htx : tx.isMultisig
    · simp [prepareMosaicDefinition, constructMosaicDefinition, multisigWrapper,
        CREATE_DATA, Built.headers, htx] at hc
      subst hc
      rcases eq_or_ne env.network testnetId with h | h <;> simp [h]
    · simp [prepareMosaicDefinition, constructMosaicDefinition, multisigWrapper,
        CREATE_DATA, Built.headers, htx] at hc
      rcases hc with rfl | rfl <;>
        (rcases eq_or_ne env.network testnetId with h | h <;> simp [h])
  · intro clk common tx c hc
    cases htx : tx.isMultisig
    · simp [prepareMosaicSupply, constructMosaicSupply, multisigWrapper, CREATE_DATA,
        Built.headers, htx] at hc
      subst hc
      rcases eq_or_ne env.network testnetId with h | h <;> simp [h]
    · simp [prepareMosaicSupply, constructMosaicSupply, multisigWrapper, CREATE_DATA,
        Built.headers, htx] at hc
      rcases hc with rfl | rfl <;>
        (rcases eq_or_ne env.network testnetId with h | h <;> simp [h])
  · intro clk common tx c hc
    cases htx : tx.isMultisig
    · simp [prepareImportanceTransfer, constructImportanceTransfer, multisigWrapper,
        CREATE_DATA, Built.headers, htx] at hc
      subst hc
      rcases eq_or_ne env.network testnetId with h | h <;> simp [h]
    · simp [prepareImportanceTransfer, constructImportanceTransfer, multisigWrapper,
        CREATE_DATA, Built.headers, htx] at hc
      rcases hc with rfl | rfl <;>
        (rcases eq_or_ne env.network testnetId with h | h <;> simp [h])
  · intro clk common tx c hc
    cases htx : tx.isMultisig
    · simp [prepareApostilleTransfer, constructTransfer, multisigWrapper, CREATE_DATA,
        Built.headers, htx] at hc
      subst hc
      rcases eq_or_ne env.network testnetId with h | h <;> simp [h]
    · simp [prepareApostilleTransfer, constructTransfer, multisigWrapper, CREATE_DATA,
        Built.headers, htx] at hc
      rcases hc with rfl | rfl <;>
        (rcases eq_or_ne env.network testnetId with h | h <;> simp [h])
  · intro clk tx arr
    rcases eq_or_ne env.network testnetId with h | h <;>
      simp [constructAggregate, CREATE_DATA, h]
  · intro clk sender tx arr c hc
    rcases hc with rfl | rfl <;>
      (rcases eq_or_ne env.network testnetId with h | h <;>
        simp [constructAggregateModifications, multisigWrapper, CREATE_DATA, h])
  · intro clk common tx
    rcases eq_or_ne env.network testnetId with h | h <;>
      simp [prepareSignatureEntity, constructSignature, CREATE_DATA, h]


/-- Totality of `charListLe`. -/
theorem charListLe_total : ∀ a b, (charListLe a b || charListLe b a) = true
  | [], b => by cases b <;> simp [charListLe]
  | a :: as, [] => by simp [charListLe]
  | a :: as, b :: bs => by
    by_cases h1 : a < b
    · simp [charListLe, h1]
    · by_cases h2 : b < a
      · simp [charListLe, h1, h2]
      · have hab : a = b := le_antisymm (not_lt.mp h2) (not_lt.mp h1)
        subst hab
        simpa [charListLe, h1] using charListLe_total as bs

/-- Transitivity of `charListLe`. -/
theorem charListLe_trans : ∀ a b c, charListLe a b = true → charListLe b c = true →
    charListLe a c = true
  | [], _, _, _, _ => by simp [charListLe]
  | _ :: _, [], _, hab, _ => by simp [charListLe] at hab
  | _ :: _, _ :: _, [], _, hbc => by simp [charListLe] at hbc
  | a :: as, b :: bs, c :: cs, hab, hbc => by
    simp only [charListLe] at hab hbc ⊢
    by_cases h1 : a < b
    · by_cases h2 : b < c
      · simp [lt_trans h1 h2]
      · by_cases h3 : c < b
        · simp [h2, h3] at hbc
        · have hbc2 : b = c := le_antisymm (not_lt.mp h3) (not_lt.mp h2)
          subst hbc2
          simp [h1]
    · by_cases h3 : b < a
      · simp [h1, h3] at hab
      · have hab2 : a = b := le_antisymm (not_lt.mp h3) (not_lt.mp h1)
        subst hab2
        by_cases h2 : a < c
        · simp [h2]
        · by_cases h4 : c < a
          · simp [h2, h4] at hbc
          · have hac : a = c := le_antisymm (not_lt.mp h4) (not_lt.mp h2)
            subst hac
            simp only [lt_irrefl, if_false] at hab hbc ⊢
            exact charListLe_trans as bs cs hab hbc

/-- Totality of `strLe`. -/
theorem strLe_total (a b : String) : (strLe a b || strLe b a) = true :=
  charListLe_total a.data b.data

/-- Transitivity of `strLe`. -/
theorem strLe_trans (a b c : String) (hab : strLe a b = true) (hbc : strLe b c = true) :
    strLe a c = true :=
  charListLe_trans a.data b.data c.data hab hbc

/-- Transitivity of `aggregateModLe`. -/
theorem aggregateModLe_trans (env : Env) (a b c : CosignatoryModification)
    (hab : aggregateModLe env a b = true) (hbc : aggregateModLe env b c = true) :
    aggregateModLe env a c = true := by
  simp only [aggregateModLe, Bool.or_eq_true, Bool.and_eq_true, decide_eq_true_eq] at *
  rcases hab with h1 | ⟨h1, h1'⟩ <;> rcases hbc with h2 | ⟨h2, h2'⟩
  · exact Or.inl (lt_trans h1 h2)
  · exact Or.inl (h2 ▸ h1)
  · exact Or.inl (h1 ▸ h2)
  · exact Or.inr ⟨h1.trans h2, strLe_trans _ _ _ h1' h2'⟩

/-- Totality of `aggregateModLe`. -/
theorem aggregateModLe_total (env : Env) (a b : CosignatoryModification) :
    aggregateModLe env a b || aggregateModLe env b a := by
  simp only [aggregateModLe, Bool.or_eq_true, Bool.and_eq_true, decide_eq_true_eq]
  rcases lt_trichotomy a.modificationType b.modificationType with h | h | h
  · exact Or.inl (Or.inl h)
  · have := strLe_total (addrOf env a) (addrOf env b)
    rcases Bool.or_eq_true_iff.mp this with ha | ha
    · exact Or.inl (Or.inr ⟨h, ha⟩)
    · exact Or.inr (Or.inr ⟨h.symm, ha⟩)
  · exact Or.inr (Or.inl h)

/-- Transitivity of `aggregateLe`. -/
theorem aggregateLe_trans (env : Env) (a b c : CosignatoryModification)
    (hab : aggregateLe env a b = true) (hbc : aggregateLe env b c = true) :
    aggregateLe env a c = true := by
  simp only [aggregateLe] at *
  exact strLe_trans _ _ _ hab hbc

/-- Totality of `aggregateLe`. -/
theorem aggregateLe_total (env : Env) (a b : CosignatoryModification) :
    aggregateLe env a b || aggregateLe env b a := by
  simp only [aggregateLe]
  exact strLe_total _ _

/-- C5: with at least two modifications, the modification list of a built
ModifyMultisig transaction (both the `_constructAggregateModifications`
output, inside its wrapper, and the `_constructAggregate` output) is sorted
non-decreasing by operation code and, for equal codes, non-decreasing by
canonical address. -/
theorem modifications_sorted (env : Env) (clk : Nat) (sender : String)
    (tx : AggregateIntent) (arr : List Signatory) (h2 : 2 ≤ arr.length) :
    ModListSorted env
      (constructAggregateModifications env clk sender tx arr).otherTrans.modifications
    ∧ ModListSorted env (constructAggregate env clk tx arr).modifications := by
  constructor
  · have hlen : 1 < (arr.map (fun s =>
        { modificationType := s.type, cosignatoryAccount := s.pubKey :
          CosignatoryModification })).length := by
      simp; omega
    have hsorted := List.sorted_mergeSort
      (fun a b c => aggregateModLe_trans env a b c)
      (fun a b => aggregateModLe_total env a b)
      (arr.map (fun s => { modificationType := s.type, cosignatoryAccount := s.pubKey }))
    have : (constructAggregateModifications env clk sender tx arr).otherTrans.modifications =
        (arr.map (fun s =>
          { modificationType := s.type, cosignatoryAccount := s.pubKey :
            CosignatoryModification })).mergeSort (aggregateModLe env) := by
      simp [constructAggregateModifications, multisigWrapper, hlen]
      exact fun h => absurd h (by omega)
    rw [this]
    exact hsorted.imp (by
      intro a b hab
      simpa only [aggregateModLe, Bool.or_eq_true, Bool.and_eq_true,
        decide_eq_true_eq] using hab)
  · have hlen : 1 < (arr.map (fun s =>
        { modificationType := 1, cosignatoryAccount := s.pubKey :
          CosignatoryModification })).length := by
      simp; omega
    have hsorted := List.sorted_mergeSort
      (fun a b c => aggregateLe_trans env a b c)
      (fun a b => aggregateLe_total env a b)
      (arr.map (fun s => { modificationType := 1, cosignatoryAccount := s.pubKey }))
    have hmods : (constructAggregate env clk tx arr).modifications =
        (arr.map (fun s =>
          { modificationType := 1, cosignatoryAccount := s.pubKey :
            CosignatoryModification })).mergeSort (aggregateLe env) := by
      simp [constructAggregate, hlen]
      exact fun h => absurd h (by omega)
    rw [hmods]
    refine hsorted.imp_of_mem (fun {a b} ha hb hab => ?_)
    have ha1 : a.modificationType = 1 := by
      rw [List.mem_mergeSort] at ha
      rcases List.mem_map.mp ha with ⟨s, _, rfl⟩
      rfl
    have hb1 : b.modificationType = 1 := by
      rw [List.mem_mergeSort] at hb
      rcases List.mem_map.mp hb with ⟨s, _, rfl⟩
      rfl
    right
    refine ⟨by rw [ha1, hb1], ?_⟩
    simpa only [aggregateLe] using hab


/-- The modification list built by `_constructAggregateModifications` is a
permutation of the input signatory array mapped to modifications. -/
theorem aggregateModifications_perm (env : Env) (clk : Nat) (sender : String)
    (tx : AggregateIntent) (arr : List Signatory) :
    ((constructAggregateModifications env clk sender tx arr).otherTrans.modifications).Perm
      (arr.map (fun s =>
        { modificationType := s.type, cosignatoryAccount := s.pubKey :
          CosignatoryModification })) := by
  have : (constructAggregateModifications env clk sender tx arr).otherTrans.modifications =
      (if 1 < (arr.map (fun s =>
          { modificationType := s.type, cosignatoryAccount := s.pubKey :
            CosignatoryModification })).length then
        (arr.map (fun s =>
          { modificationType := s.type, cosignatoryAccount := s.pubKey :
            CosignatoryModification })).mergeSort (aggregateModLe env)
      else arr.map (fun s =>
        { modificationType := s.type, cosignatoryAccount := s.pubKey :
          CosignatoryModification })) := by
    simp only [constructAggregateModifications, multisigWrapper]
  rw [this]
  split
  · exact List.mergeSort_perm _ _
  · exact List.Perm.refl _

/-- C10: every modification pushed by `_constructAggregate` has
`modificationType = 1` whatever type the input entries carry, whereas
`_constructAggregateModifications` copies each entry's type (its output's
(type, key) pairs are a permutation of the input's). -/
theorem aggregate_forces_add_type (env : Env) (clk : Nat) (sender : String)
    (tx : AggregateIntent) (arr : List Signatory) :
    (∀ m ∈ (constructAggregate env clk tx arr).modifications, m.modificationType = 1)
    ∧ ((constructAggregateModifications env clk sender tx arr).otherTrans.modifications.map
          (fun m => (m.modificationType, m.cosignatoryAccount))).Perm
        (arr.map (fun s => (s.type, s.pubKey))) := by
  constructor
  · intro m hm
    simp only [constructAggregate] at hm
    split at hm
    · rw [List.mem_mergeSort] at hm
      rcases List.mem_map.mp hm with ⟨s, _, rfl⟩
      rfl
    · rcases List.mem_map.mp hm with ⟨s, _, rfl⟩
      rfl
  · have h := (aggregateModifications_perm env clk sender tx arr).map
      (fun m => (m.modificationType, m.cosignatoryAccount))
    rw [List.map_map] at h
    exact h

/-- C6 (amended): `_constructAggregateModifications` performs no
duplicate-cosignatory validation: the built modification list carries exactly
the input's multiset of (type, key) data, so duplicated keys survive into the
returned transaction. -/
theorem duplicate_keys_pass_through (env : Env) (clk : Nat) (sender : String)
    (tx : AggregateIntent) (arr : List Signatory) :
    ((constructAggregateModifications env clk sender tx arr).otherTrans.modifications.map
        (fun m => m.cosignatoryAccount)).Perm (arr.map (fun s => s.pubKey))
    ∧ (constructAggregateModifications env clk sender tx arr).otherTrans.modifications.length
        = arr.length := by
  have h := aggregateModifications_perm env clk sender tx arr
  constructor
  · have hm := h.map (fun m => m.cosignatoryAccount)
    rw [List.map_map] at hm
    exact hm
  · rw [h.length_eq, List.length_map]

unseal List.merge List.mergeSort in
/-- C6 counterexample: a modification list with a duplicated cosignatory key
is not rejected — `_constructAggregateModifications` returns a transaction
whose modification list still contains both copies. -/
theorem duplicate_keys_accepted_cex :
    (constructAggregateModifications envW 0 "SENDERPUB" aggTxW
        [{ pubKey := "KDUP", type := 1 }, { pubKey := "KDUP", type := 1 }]
      ).otherTrans.modifications =
      [{ modificationType := 1, cosignatoryAccount := "KDUP" },
       { modificationType := 1, cosignatoryAccount := "KDUP" }] := by
  decide


/-- C2 counterexample: with the ticking time source `0, 1, 2, …`, a
multisig-wrapped transfer samples the time source once for the inner entity
(tick 0) and again for the wrapper (tick 1): the outer header's timestamp is
`1` while the inner's is `0`, and the deadlines differ accordingly. -/
theorem multisig_two_time_samples_cex :
    ((prepareTransfer envW 0 commonW txMultiW []).headers (fun e => e.toCommonData)).map
        (fun c => c.timeStamp) = [1, 0]
    ∧ ((prepareTransfer envW 0 commonW txMultiW []).headers (fun e => e.toCommonData)).map
        (fun c => c.deadline) = [3601, 3600] := by
  constructor <;> rfl

/-- C2 (amended): within one multisig-wrapped transfer construction the inner
and outer headers share the same `due`, so `deadline - timeStamp` agrees; but
each header draws its own sample from the time source (the wrapper samples
after the inner entity), so the timestamps — and hence the deadlines — agree
only when the time source returns the same value for both samples. -/
theorem multisig_headers_one_due (env : Env) (clk : Nat) (common : Common)
    (tx : TransferIntent) (meta : MosaicRegistry) (c₁ c₂ : CommonData)
    (h₁ : c₁ ∈ (prepareTransfer env clk common tx meta).headers (fun e => e.toCommonData))
    (h₂ : c₂ ∈ (prepareTransfer env clk common tx meta).headers (fun e => e.toCommonData)) :
    c₁.deadline - c₁.timeStamp = c₂.deadline - c₂.timeStamp
    ∧ ((∀ n m : Nat, env.timeSource n = env.timeSource m) →
        c₁.timeStamp = c₂.timeStamp ∧ c₁.deadline = c₂.deadline) := by
  cases htx : tx.isMultisig
  · simp [prepareTransfer, constructTransfer, multisigWrapper, CREATE_DATA,
      Built.headers, htx] at h₁ h₂
    subst h₁
    subst h₂
    exact ⟨rfl, fun _ => ⟨rfl, rfl⟩⟩
  · simp [prepareTransfer, constructTransfer, multisigWrapper, CREATE_DATA,
      Built.headers, htx] at h₁ h₂
    rcases h₁ with rfl | rfl <;> rcases h₂ with rfl | rfl
    · exact ⟨rfl, fun _ => ⟨rfl, rfl⟩⟩
    · refine ⟨by simp, fun hts => ?_⟩
      have h := hts (clk + 1) clk
      constructor <;> simp [h]
    · refine ⟨by simp, fun hts => ?_⟩
      have h := hts (clk + 1) clk
      constructor <;> simp [h]
    · exact ⟨rfl, fun _ => ⟨rfl, rfl⟩⟩


/-- The fee loop aborts with `none` as soon as any attachment's registry
lookup misses, wherever the missing attachment sits. -/
theorem mosaicsFeeLoop_none (env : Env) (mult : ℚ) (registry : MosaicRegistry) :
    ∀ (att : List AttachedMosaic) (totalFee adj : Int),
      (∃ m ∈ att, registry.lookup (env.mosaicIdToName m.mosaicId) = none) →
      mosaicsFeeLoop env mult registry att totalFee adj = none
  | [], _, _, h => by simp at h
  | m :: rest, totalFee, adj, h => by
    rcases h with ⟨m', hm', hmiss⟩
    rcases List.mem_cons.mp hm' with rfl | hm'
    · simp [mosaicsFeeLoop, hmiss]
    · cases hl : registry.lookup (env.mosaicIdToName m.mosaicId) with
      | none => simp [mosaicsFeeLoop, hl]
      | some pair =>
        simp only [mosaicsFeeLoop, hl]
        exact mosaicsFeeLoop_none env mult registry rest _ _ ⟨m', hm', hmiss⟩

/-- When every attachment resolves in the registry, the fee loop completes. -/
theorem mosaicsFeeLoop_some (env : Env) (mult : ℚ) (registry : MosaicRegistry) :
    ∀ (att : List AttachedMosaic) (totalFee adj : Int),
      (∀ m ∈ att, registry.lookup (env.mosaicIdToName m.mosaicId) ≠ none) →
      ∃ t, mosaicsFeeLoop env mult registry att totalFee adj = some t
  | [], totalFee, _, _ => ⟨totalFee, rfl⟩
  | m :: rest, totalFee, adj, h => by
    have hm := h m (List.mem_cons_self m rest)
    cases hl : registry.lookup (env.mosaicIdToName m.mosaicId) with
    | none => exact absurd hl hm
    | some pair =>
      rcases mosaicsFeeLoop_some env mult registry rest
        (totalFee + (mosaicFeeContribution env mult pair m adj).1)
        (mosaicFeeContribution env mult pair m adj).2
        (fun m' hm' => h m' (List.mem_cons_of_mem _ hm')) with ⟨t, ht⟩
      exact ⟨t, by simp only [mosaicsFeeLoop, hl]; exact ht⟩

/-- On an attachment list whose every asset is found, `calculateMosaicsFee`
returns an ordinary fee, which is at least 1 — so the sentinel `-1` is
unambiguous. -/
theorem calculateMosaicsFee_ge_one (env : Env) (mult : ℚ) (registry : MosaicRegistry)
    (att : List AttachedMosaic)
    (h : ∀ m ∈ att, registry.lookup (env.mosaicIdToName m.mosaicId) ≠ none) :
    1 ≤ calculateMosaicsFee env mult registry att := by
  rcases mosaicsFeeLoop_some env mult registry att 0 0 h with ⟨t, ht⟩
  simp [calculateMosaicsFee, ht]

/-- C1 (amended): an unknown asset makes `calculateMosaicsFee` return the
distinguished sentinel `-1` — never an ordinary fee, which is always ≥ 1 —
but `prepareTransfer` does not abort: it folds the sentinel into the fee
arithmetic and still returns a transfer entity, whose fee is
`(messageFee - 1) * 1000000`. -/
theorem unknown_asset_sentinel (env : Env) (registry : MosaicRegistry)
    (attached : List AttachedMosaic)
    (hmiss : ∃ m ∈ attached, registry.lookup (env.mosaicIdToName m.mosaicId) = none) :
    (∀ mult : ℚ, calculateMosaicsFee env mult registry attached = -1)
    ∧ (∀ (mult : ℚ) (registry2 : MosaicRegistry) (att2 : List AttachedMosaic),
        (∀ m ∈ att2, registry2.lookup (env.mosaicIdToName m.mosaicId) ≠ none) →
        1 ≤ calculateMosaicsFee env mult registry2 att2)
    ∧ (∀ (clk : Nat) (common : Common) (tx : TransferIntent),
        tx.isMultisig = false → tx.mosaics = some attached →
        (prepareTransfer env clk common tx registry).fees (fun e => e.fee) =
          [(messageFee (env.prepareMessage common tx).payload + (-1)) * 1000000]) := by
  refine ⟨?_, ?_, ?_⟩
  · intro mult
    simp [calculateMosaicsFee, mosaicsFeeLoop_none env mult registry attached 0 0 hmiss]
  · intro mult registry2 att2 h
    exact calculateMosaicsFee_ge_one env mult registry2 att2 h
  · intro clk common tx htx hmos
    have hfee : calculateMosaicsFee env ((⌊tx.amount * 1000000 + 2⁻¹⌋ : Int) : ℚ)
        registry attached = -1 := by
      simp [calculateMosaicsFee, mosaicsFeeLoop_none env _ registry attached 0 0 hmiss]
    simp [prepareTransfer, constructTransfer, Built.fees, htx, hmos, hfee]

/-- C1 counterexample: with an empty registry, the lookup of `"missing"`
fails and `calculateMosaicsFee` yields the sentinel `-1`; yet
`prepareTransfer` still returns a (plain) transfer entity, with the sentinel
folded into its fee: `(0 - 1) * 1000000 = -1000000`. -/
theorem unknown_asset_not_aborted_cex :
    calculateMosaicsFee envW 0 [] [{ mosaicId := "missing", quantity := 1 }] = -1
    ∧ (prepareTransfer envW 0 commonW txUnknownW []).fees (fun e => e.fee) =
        [-1000000] := by
  constructor <;> rfl

/-- The message fee is never negative. -/
theorem messageFee_nonneg (payload : String) : 0 ≤ messageFee payload := by
  unfold messageFee
  split
  · exact le_trans zero_le_one (le_max_left _ _)
  · exact le_refl 0


/-- C4 counterexample: the fee invariant fails — a transfer whose attachment
list references an unknown asset is returned with fee `-1000000`, which is
below 1 base unit. -/
theorem fee_invariant_violated_cex :
    (prepareTransfer envW 0 commonW txUnknownW []).fees (fun e => e.fee) = [-1000000]
    ∧ (-1000000 : Int) < 1 := by
  exact ⟨rfl, by decide⟩

/-- Scaled-fee bound used for the transfer variants. -/
theorem one_le_scaled (a b : Int) (ha : 0 ≤ a) (hb : 1 ≤ b) :
    1 ≤ (a + b) * 1000000 := by nlinarith

/-- C4 (amended): every fee field of every built transaction — wrapper fees
included — is at least 1 base unit, except that a Transfer built from an
attachment list containing an unknown asset carries the propagated sentinel
(fee `(messageFee - 1) * 1000000`, possibly negative).  The transfer cases
assume the external minimum-fee helper returns ≥ 1, which spec §4.1
guarantees of it. -/
theorem built_fee_at_least_one (env : Env) (hmin : ∀ q : ℚ, 1 ≤ env.calcMinFee q) :
    (∀ (clk : Nat) (common : Common) (tx : TransferIntent) (meta : MosaicRegistry),
        (tx.mosaics = none ∨ ∃ ms, tx.mosaics = some ms ∧
          ∀ m ∈ ms, meta.lookup (env.mosaicIdToName m.mosaicId) ≠ none) →
        ∀ f ∈ (prepareTransfer env clk common tx meta).fees (fun e => e.fee), 1 ≤ f)
    ∧ (∀ (clk : Nat) (common : Common) (tx : NamespaceIntent),
        ∀ f ∈ (prepareNamespace env clk common tx).fees (fun e => e.fee), 1 ≤ f)
    ∧ (∀ (clk : Nat) (common : Common) (tx : MosaicDefinitionIntent),
        ∀ f ∈ (prepareMosaicDefinition env clk common tx).fees (fun e => e.fee), 1 ≤ f)
    ∧ (∀ (clk : Nat) (common : Common) (tx : MosaicSupplyIntent),
        ∀ f ∈ (prepareMosaicSupply env clk common tx).fees (fun e => e.fee), 1 ≤ f)
    ∧ (∀ (clk : Nat) (common : Common) (tx : ImportanceIntent),
        ∀ f ∈ (prepareImportanceTransfer env clk common tx).fees (fun e => e.fee), 1 ≤ f)
    ∧ (∀ (clk : Nat) (common : Common) (tx : ApostilleIntent),
        ∀ f ∈ (prepareApostilleTransfer env clk common tx).fees (fun e => e.fee), 1 ≤ f)
    ∧ (∀ (clk : Nat) (tx : AggregateIntent) (arr : List Signatory),
        1 ≤ (constructAggregate env clk tx arr).fee)
    ∧ (∀ (clk : Nat) (sender : String) (tx : AggregateIntent) (arr : List Signatory),
        1 ≤ (constructAggregateModifications env clk sender tx arr).fee
        ∧ 1 ≤ (constructAggregateModifications env clk sender tx arr).otherTrans.fee)
    ∧ (∀ (clk : Nat) (common : Common) (tx : SignatureIntent),
        1 ≤ (prepareSignatureEntity env clk common tx).fee) := by
  have hnat : ∀ n : Nat, (0 : Int) ≤ (n : Int) := fun n => Int.natCast_nonneg n
  refine ⟨?_, ?_, ?_, ?_, ?_, ?_, ?_, ?_, ?_⟩
  · intro clk common tx meta hok f hf
    rcases hok with hnone | ⟨ms, hms, hfound⟩
    · cases htx : tx.isMultisig <;>
        simp [prepareTransfer, constructTransfer, Built.fees, multisigWrapper, htx,
          hnone] at hf
      · subst hf
        exact one_le_scaled _ _ (messageFee_nonneg _) (hmin _)
      · rcases hf with rfl | rfl
        · norm_num
        · exact one_le_scaled _ _ (messageFee_nonneg _) (hmin _)
    · cases htx : tx.isMultisig <;>
        simp [prepareTransfer, constructTransfer, Built.fees, multisigWrapper, htx,
          hms] at hf
      · subst hf
        exact one_le_scaled _ _ (messageFee_nonneg _)
          (calculateMosaicsFee_ge_one env _ meta ms hfound)
      · rcases hf with rfl | rfl
        · norm_num
        · exact one_le_scaled _ _ (messageFee_nonneg _)
            (calculateMosaicsFee_ge_one env _ meta ms hfound)
  · intro clk common tx f hf
    cases htx : tx.isMultisig <;>
      simp [prepareNamespace, constructNamespace, Built.fees, multisigWrapper, htx] at hf
    · subst hf; norm_num
    · rcases hf with rfl | rfl <;> norm_num
  · intro clk common tx f hf
    cases htx : tx.isMultisig <;>
      simp [prepareMosaicDefinition, constructMosaicDefinition, Built.fees,
        multisigWrapper, htx] at hf
    · subst hf; norm_num
    · rcases hf with rfl | rfl <;> norm_num
  · intro clk common tx f hf
    cases htx : tx.isMultisig <;>
      simp [prepareMosaicSupply, constructMosaicSupply, Built.fees, multisigWrapper,
        htx] at hf
    · subst hf; norm_num
    · rcases hf with rfl | rfl <;> norm_num
  · intro clk common tx f hf
    cases htx : tx.isMultisig <;>
      simp [prepareImportanceTransfer, constructImportanceTransfer, Built.fees,
        multisigWrapper, htx] at hf
    · subst hf; norm_num
    · subst hf; norm_num
  · intro clk common tx f hf
    cases htx : tx.isMultisig <;>
      simp [prepareApostilleTransfer, constructTransfer, Built.fees, multisigWrapper,
        htx] at hf
    · subst hf
      exact one_le_scaled _ _ (messageFee_nonneg _) (hmin _)
    · rcases hf with rfl | rfl
      · norm_num
      · exact one_le_scaled _ _ (messageFee_nonneg _) (hmin _)
  · intro clk tx arr
    have := hnat arr.length
    simp [constructAggregate]
    nlinarith
  · intro clk sender tx arr
    have := hnat arr.length
    constructor
    · simp [constructAggregateModifications, multisigWrapper]
    · simp [constructAggregateModifications, multisigWrapper]
      split <;> nlinarith
  · intro clk common tx
    simp [prepareSignatureEntity, constructSignature]


/-- For an asset whose `totalMosaicQuantity` (here `10^16`) exceeds
`maxMosaicQuantity = 9 * 10^15`, the logarithmic supply adjustment is
negative: `floor(0.8 * ln(9/10)) = -1`. -/
theorem supplyRelatedAdjustment_overmax :
    supplyRelatedAdjustment 10000000000000000 0 = -1 := by
  unfold supplyRelatedAdjustment
  have hratio : ((9000000000000000 : ℝ) /
      (((10000000000000000 : Int) : ℝ) * (10 : ℝ) ^ (0 : Int))) = 9 / 10 := by
    norm_num
  rw [hratio, Int.floor_eq_iff]
  constructor
  · have h1 : Real.log (10 / 9) ≤ 10 / 9 - 1 := Real.log_le_sub_one_of_pos (by norm_num)
    have h2 : Real.log (9 / 10) = -Real.log (10 / 9) := by
      rw [show ((9 : ℝ) / 10) = (10 / 9)⁻¹ by norm_num, Real.log_inv]
    push_cast
    nlinarith [h1, h2]
  · have h3 : Real.log (9 / 10) < 0 := Real.log_neg (by norm_num) (by norm_num)
    push_cast
    nlinarith [h3]

/-- C3 counterexample: the `supplyRelatedAdjustment` state set to `-1` by a
preceding oversupplied attachment leaks into the small-business branch, whose
contribution becomes `max 1 (1 - (-1)) = 2`, not 1; on the two-attachment
list `[big, small]` the total fee is `2 + 2 = 4` where the claim's
per-attachment arithmetic would give the small attachment 1. -/
theorem small_business_leaked_adjustment_cex :
    supplyRelatedAdjustment 10000000000000000 0 = -1
    ∧ (mosaicFeeContribution envW 1 smallPairW { mosaicId := "small:asset", quantity := 10 }
        (supplyRelatedAdjustment 10000000000000000 0)).1 = 2
    ∧ calculateMosaicsFee envW 1 registryW
        [{ mosaicId := "big:asset", quantity := 1 },
         { mosaicId := "small:asset", quantity := 10 }] = 4 := by
  have hadj := supplyRelatedAdjustment_overmax
  refine ⟨hadj, ?_, ?_⟩
  · rw [hadj]
    simp [mosaicFeeContribution, divisibilityOf, smallPairW]
  · have hbig : registryW.lookup "big:asset" = some bigPairW := rfl
    have hsmall : registryW.lookup "small:asset" = some smallPairW := rfl
    simp [calculateMosaicsFee, mosaicsFeeLoop, mosaicFeeContribution, divisibilityOf,
      hbig, hsmall, bigPairW, smallPairW, envW, hadj]

/-- C3 (amended): a small-business attachment (supply ≤ 10000, divisibility
0) contributes exactly 1 unit whenever the `supplyRelatedAdjustment` state
carried into its loop iteration is nonnegative — in particular at the head of
the list (the state starts at 0) or when no earlier attachment referenced an
asset with `supply * 10^divisibility` above the maximal quantity.  A
preceding oversupplied asset drives the carried state negative and inflates
the small-business contribution. -/
theorem small_business_contribution (env : Env) (mult : ℚ)
    (pair : MosaicDefinitionMetaDataPair) (m : AttachedMosaic) (adjIn : Int)
    (hsupply : pair.supply ≤ 10000) (hdiv : divisibilityOf pair = 0)
    (hadj : 0 ≤ adjIn) :
    mosaicFeeContribution env mult pair m adjIn = (1, adjIn) := by
  have hcond : pair.supply ≤ 10000 ∧ divisibilityOf pair = 0 := ⟨hsupply, hdiv⟩
  simp only [mosaicFeeContribution, if_pos hcond]
  have hmax : max 1 (1 - adjIn) = 1 := by omega
  rw [hmax]


/-! Witnesses. -/

/-- Witness for C9-adjacent evaluation and C8: on the test network the
version word of schema 2 has high byte `0x98`. -/
theorem version_word_formula_witness :
    CURRENT_NETWORK_VERSION envW 2 / 0x1000000 = 0x98 := by
  have h := (version_word_formula envW).2.1 2 (Or.inr rfl)
  simpa [envW, testnetId, mainnetId] using h

/-- Witness for C7 at a concrete test-network transfer: deadline 3600,
timestamp 0. -/
theorem deadline_policy_witness :
    (⟨TransactionTypes.Transfer, 0x98000001, "SENDERPUB", 0, 3600⟩ : CommonData).deadline =
      (⟨TransactionTypes.Transfer, 0x98000001, "SENDERPUB", 0, 3600⟩ : CommonData).timeStamp +
        (if envW.network = testnetId then 60 else 1440) * 60 :=
  (deadline_policy envW).1 0 commonW txPlainW [] _ (by decide)

/-- Witness for C5 on a concrete two-element modification list. -/
theorem modifications_sorted_witness :
    ModListSorted envW
      (constructAggregateModifications envW 0 "SENDERPUB" aggTxW
        [{ pubKey := "B", type := 1 }, { pubKey := "A", type := 1 }]).otherTrans.modifications
    ∧ ModListSorted envW
      (constructAggregate envW 0 aggTxW
        [{ pubKey := "B", type := 1 }, { pubKey := "A", type := 1 }]).modifications :=
  modifications_sorted envW 0 "SENDERPUB" aggTxW
    [{ pubKey := "B", type := 1 }, { pubKey := "A", type := 1 }] (by decide)

/-- Witness for C10 at a singleton input of type 2: the aggregate builder
rewrites it to 1, the aggregate-modifications builder keeps it. -/
theorem aggregate_forces_add_type_witness :
    ({ modificationType := 1, cosignatoryAccount := "B" } :
        CosignatoryModification).modificationType = 1
    ∧ ((constructAggregateModifications envW 0 "SENDERPUB" aggTxW
          [{ pubKey := "B", type := 2 }]).otherTrans.modifications.map
        (fun m => (m.modificationType, m.cosignatoryAccount))).Perm [(2, "B")] :=
  ⟨(aggregate_forces_add_type envW 0 "SENDERPUB" aggTxW
      [{ pubKey := "B", type := 2 }]).1 _ (by decide),
    by simpa using (aggregate_forces_add_type envW 0 "SENDERPUB" aggTxW
      [{ pubKey := "B", type := 2 }]).2⟩

/-- Witness for C2 (amended) on a concrete wrapped transfer: both headers
yield the same `deadline - timeStamp` difference (3601 - 1 = 3600 - 0). -/
theorem multisig_headers_one_due_witness :
    (⟨TransactionTypes.MultisigTransaction, 0x98000001, "SENDERPUB", 1, 3601⟩ :
        CommonData).deadline -
      (⟨TransactionTypes.MultisigTransaction, 0x98000001, "SENDERPUB", 1, 3601⟩ :
        CommonData).timeStamp =
    (⟨TransactionTypes.Transfer, 0x98000001, "MULTIPUB", 0, 3600⟩ :
        CommonData).deadline -
      (⟨TransactionTypes.Transfer, 0x98000001, "MULTIPUB", 0, 3600⟩ :
        CommonData).timeStamp :=
  (multisig_headers_one_due envW 0 commonW txMultiW [] _ _ (by decide) (by decide)).1

/-- Witness for C1 (amended) on the concrete missing-asset attachment. -/
theorem unknown_asset_sentinel_witness :
    calculateMosaicsFee envW 0 [] [{ mosaicId := "missing", quantity := 1 }] = -1 :=
  (unknown_asset_sentinel envW [] [{ mosaicId := "missing", quantity := 1 }]
    ⟨{ mosaicId := "missing", quantity := 1 }, by decide, rfl⟩).1 0

/-- Witness for C4 (amended) on a concrete no-attachment transfer with fee
1000000. -/
theorem built_fee_at_least_one_witness : (1 : Int) ≤ 1000000 :=
  (built_fee_at_least_one envW (fun _ => le_refl 1)).1 0 commonW txPlainW []
    (Or.inl rfl) 1000000 (by decide)

/-- Witness for C3 (amended): a small-business attachment evaluated with the
initial adjustment state 0 contributes exactly 1. -/
theorem small_business_contribution_witness :
    mosaicFeeContribution envW 1 smallPairW { mosaicId := "small:asset", quantity := 10 } 0 =
      (1, 0) :=
  small_business_contribution envW 1 smallPairW
    { mosaicId := "small:asset", quantity := 10 } 0 (by decide) (by decide) (by decide)

end NemServices
